import Mathlib

/-!
Shallow embedding of the `kunwar45/transit` repository (a transit-route
visualization front-end) for checking its natural-language specification.

The embedding covers:
* `src/types/route.ts` — the `Route` record;
* `src/services/RoutesManager.ts` — the in-memory route registry
  (validation, add/update/remove, GeoJSON conversion);
* `src/utils/geoTransform.ts` — the EPSG:3347 → WGS84 reprojection pipeline
  (the third-party `proj4` point transform is an abstract parameter);
* the GeoJSON normalization/fetch helper (`normalizeGeoJSON`, `fetchGeoJSON`);
* the map style selection in `src/Map.tsx`.

JavaScript numbers are modelled as rationals (ℚ); the validation and
defaulting logic of the source only compares numbers with constants, and on
every non-NaN float the order embedding into ℚ is exact.  JavaScript objects
(`Record<string, unknown>`) are modelled as association lists of
string-keyed values where, as with object spread, the last occurrence of a
key wins on lookup.
-/

namespace Transit

/-- A JSON array element as inspected by `validateRoute`:
`typeof v === 'number'` either holds (a rational) or does not. -/
inductive JVal where
  | num (q : ℚ)
  | nonNum
deriving DecidableEq

/-- One entry of `Route.coordinates` (`number[]` in TypeScript, but at run
time possibly not an array at all): either an array of JSON values or a
non-array value (`!Array.isArray(coord)`). -/
inductive CoordEntry where
  | arr (vals : List JVal)
  | notArr
deriving DecidableEq

/-- A JSON property value (`unknown` in TypeScript), as far as the code
inspects one: strings, numbers, booleans, null. -/
inductive PVal where
  | str (s : String)
  | num (q : ℚ)
  | boolV (b : Bool)
  | nullV
deriving DecidableEq

/-- A JavaScript object of property values, as an association list in
insertion order.  Lookup takes the last occurrence of a key, which models
object-literal/spread construction where later keys override earlier ones. -/
abbrev Obj := List (String × PVal)

/-- Object property lookup: the value of the LAST entry with the given key
(later spread entries override earlier ones), `none` when absent. -/
def objGet (l : Obj) (k : String) : Option PVal :=
  (l.reverse.find? (fun p => p.1 == k)).map (fun p => p.2)

/-- JavaScript property assignment `o[k] = v`: overwrite every entry with
that key in place, or append when the key is absent. -/
def objSet (l : Obj) (k : String) (v : PVal) : Obj :=
  if l.any (fun p => p.1 == k) then
    l.map (fun p => if p.1 == k then (k, v) else p)
  else l ++ [(k, v)]

/-- JavaScript falsiness of a property value (`''`, `0`, `false`, `null`). -/
def pvalFalsy : PVal → Bool
  | .str s => s == ""
  | .num q => q == 0
  | .boolV b => !b
  | .nullV => true

/-- Falsiness of an optional property (`undefined` is falsy). -/
def optFalsy : Option PVal → Bool
  | none => true
  | some v => pvalFalsy v

/-- `src/types/route.ts` — the `Route` interface.  `color`, `lineWidth` and
`properties` are optional (`none` = the field is absent/`undefined`). -/
structure Route where
  id : String
  name : String
  coordinates : List CoordEntry
  color : Option String
  lineWidth : Option ℚ
  properties : Option Obj
deriving DecidableEq

/-! ## RoutesManager: validation -/

/-- The per-coordinate body of `RoutesManager.validateRoute`'s loop:
`!Array.isArray(coord) || coord.length !== 2`, then the `typeof` checks on
the destructured `[lng, lat]`, then the range checks, in source order.
Returns the thrown error message, or `none` when the coordinate passes. -/
def validateCoord : CoordEntry → Option String
  | .notArr => some "Each coordinate must be [longitude, latitude]"
  | .arr vals =>
    match vals with
    | [a, b] =>
      match a, b with
      | .num lng, .num lat =>
        if lng < -180 ∨ lng > 180 then
          some "Longitude must be between -180 and 180"
        else if lat < -90 ∨ lat > 90 then
          some "Latitude must be between -90 and 90"
        else none
      | _, _ => some "Coordinates must be numbers"
    | _ => some "Each coordinate must be [longitude, latitude]"

/-- The `for (const coord of route.coordinates)` loop: the first failing
coordinate's error propagates. -/
def validateCoords : List CoordEntry → Option String
  | [] => none
  | c :: rest =>
    match validateCoord c with
    | some e => some e
    | none => validateCoords rest

/-- `RoutesManager.validateRoute` (lines 162–182): length check, then the
per-coordinate loop.  (`!route.coordinates` can only be the empty/short case
here since the field is total in the model.)  `some msg` models `throw new
Error(msg)`; `none` models normal return. -/
def validateRoute (r : Route) : Option String :=
  if r.coordinates.length < 2 then
    some "Route must have at least 2 coordinates"
  else validateCoords r.coordinates

/-! ## RoutesManager: the registry (a JS `Map<string, Route>`) -/

/-- The registry contents: entries in insertion order with unique keys,
as maintained by `Map` semantics. -/
abbrev RoutesMap := List (String × Route)

/-- `Map.has`. -/
def mapHas (m : RoutesMap) (k : String) : Bool :=
  m.any (fun p => p.1 == k)

/-- `Map.get` (first — and in a well-formed map, only — entry). -/
def mapGet (m : RoutesMap) (k : String) : Option Route :=
  (m.find? (fun p => p.1 == k)).map (fun p => p.2)

/-- `Map.set`: overwrite the entry in place when the key is present,
append otherwise. -/
def mapSet (m : RoutesMap) (k : String) (v : Route) : RoutesMap :=
  if mapHas m k then
    m.map (fun p => if p.1 == k then (k, v) else p)
  else m ++ [(k, v)]

/-- `Map.delete` (the new contents; `Map.delete` also reports whether the
key was present, see `removeRoute`). -/
def mapDelete (m : RoutesMap) (k : String) : RoutesMap :=
  m.filter (fun p => p.1 != k)

/-! ## RoutesManager: methods

Each mutating method is a function from the registry contents to the new
contents paired with `Option String`: `some msg` means the method threw
`new Error(msg)` (and, because every throw in the source happens before the
single `this.routes.set`/mutation, the returned contents are the input);
`none` means normal return. -/

/-- `RoutesManager.addRoute` (lines 25–34): empty-id check (`!route.id`),
duplicate check, validation, then `this.routes.set(route.id, route)`. -/
def addRoute (m : RoutesMap) (r : Route) : RoutesMap × Option String :=
  if r.id = "" then (m, some "Route must have an id")
  else if mapHas m r.id then
    (m, some ("Route with id \"" ++ r.id ++ "\" already exists"))
  else
    match validateRoute r with
    | some e => (m, some e)
    | none => (mapSet m r.id r, none)

/-- `RoutesManager.addRoutes` (lines 39–43): `addRoute` for each route in
order; a throw aborts the loop (earlier inserts are kept). -/
def addRoutes (m : RoutesMap) : List Route → RoutesMap × Option String
  | [] => (m, none)
  | r :: rest =>
    match addRoute m r with
    | (m2, some e) => (m2, some e)
    | (m2, none) => addRoutes m2 rest

/-- The `RoutesManager` constructor (lines 17–20): start from an empty map
and `addRoutes(initialRoutes)`. -/
def mkRoutesManager (initialRoutes : List Route) : RoutesMap × Option String :=
  addRoutes [] initialRoutes

/-- The update payload `Partial<Omit<Route, 'id'>>`.  The outer `Option` is
key presence in the `updates` object; for the optional `Route` fields a
present key may still carry `undefined` (the inner `none`). -/
structure RouteUpdate where
  name : Option String
  coordinates : Option (List CoordEntry)
  color : Option (Option String)
  lineWidth : Option (Option ℚ)
  properties : Option (Option Obj)
deriving DecidableEq

/-- The object spread `{ ...existingRoute, ...updates, id }`: each field
named in `updates` takes the update's value, the rest keep the existing
route's value, and `id` is forced back to the lookup key. -/
def applyUpdate (existing : Route) (u : RouteUpdate) (id : String) : Route :=
  { id := id
    name := u.name.getD existing.name
    coordinates := u.coordinates.getD existing.coordinates
    color := u.color.getD existing.color
    lineWidth := u.lineWidth.getD existing.lineWidth
    properties := u.properties.getD existing.properties }

/-- `RoutesManager.updateRoute` (lines 48–62): lookup
(`!existingRoute` throws), merge, validate the merged route, then set. -/
def updateRoute (m : RoutesMap) (id : String) (u : RouteUpdate) :
    RoutesMap × Option String :=
  match mapGet m id with
  | none => (m, some ("Route with id \"" ++ id ++ "\" not found"))
  | some existing =>
    let updated := applyUpdate existing u id
    match validateRoute updated with
    | some e => (m, some e)
    | none => (mapSet m id updated, none)

/-- `RoutesManager.removeRoute` (lines 67–69): `this.routes.delete(id)` —
returns whether the key was present, never throws. -/
def removeRoute (m : RoutesMap) (id : String) : RoutesMap × Bool :=
  (mapDelete m id, mapHas m id)

/-- `RoutesManager.removeRoutes` (lines 74–78): delete each id in order. -/
def removeRoutes (m : RoutesMap) (ids : List String) : RoutesMap :=
  ids.foldl (fun acc id => mapDelete acc id) m

/-- `RoutesManager.clearAll` (lines 116–118). -/
def clearAll (_m : RoutesMap) : RoutesMap := []

/-! ## RoutesManager: GeoJSON conversion -/

/-- One feature produced by `RoutesManager.toGeoJSON`: geometry type tag,
the geometry's `coordinates`, and the `properties` object. -/
structure RouteFeature where
  gtype : String
  coordinates : List CoordEntry
  props : Obj
deriving DecidableEq

/-- The FeatureCollection produced by `RoutesManager.toGeoJSON`. -/
structure RouteFC where
  fcType : String
  features : List RouteFeature
deriving DecidableEq

/-- `route.color || '#FF0000'`: JS `||` falls back on the falsy values
`undefined` and the empty string. -/
def colorOrDefault (c : Option String) : String :=
  match c with
  | none => "#FF0000"
  | some s => if s = "" then "#FF0000" else s

/-- `route.lineWidth || 4`: JS `||` falls back on `undefined` and `0`. -/
def lineWidthOrDefault (w : Option ℚ) : ℚ :=
  match w with
  | none => 4
  | some x => if x = 0 then 4 else x

/-- The properties object literal of `toGeoJSON`:
`{ id, name, color: route.color || '#FF0000', lineWidth: route.lineWidth || 4,
...route.properties }` — the metadata entries are spread last, so on lookup
(`objGet`) they override the four named keys. -/
def routeProps (r : Route) : Obj :=
  [("id", PVal.str r.id), ("name", PVal.str r.name),
   ("color", PVal.str (colorOrDefault r.color)),
   ("lineWidth", PVal.num (lineWidthOrDefault r.lineWidth))]
    ++ r.properties.getD []

/-- The per-route feature of `toGeoJSON`. -/
def routeToFeature (r : Route) : RouteFeature :=
  { gtype := "LineString", coordinates := r.coordinates, props := routeProps r }

/-- `RoutesManager.toGeoJSON` (lines 137–157): one LineString feature per
stored route, in `getAllRoutes()` (insertion) order. -/
def toGeoJSON (m : RoutesMap) : RouteFC :=
  { fcType := "FeatureCollection"
    features := m.map (fun p => routeToFeature p.2) }

/-! ## geoTransform.ts: reprojection pipeline

The point transform `transformCoordinates3347To4326` delegates to the
third-party `proj4` library (plus NaN checks on binary floats), so it is an
abstract parameter `tr` here: a function from a raw position to either a
transformed position or a thrown error message.  Everything downstream of it
is embedded from the source. -/

/-- A GeoJSON geometry as inspected by `transformGeoJSON3347To4326`:
only the `Polygon` tag is treated specially, every other geometry value is
passed through untouched. -/
inductive Geometry where
  | polygon (rings : List (List (List ℚ)))
  | lineString (coords : List (List ℚ))
  | other (tag : String)
deriving DecidableEq

/-- A GeoJSON feature: its geometry plus its non-geometry content (the
`properties` member, possibly `null`/absent), which the feature spreads
`{ ...feature, geometry: ... }` preserve. -/
structure GFeature where
  properties : Option Obj
  geometry : Geometry
deriving DecidableEq

/-- A GeoJSON FeatureCollection (`type` member plus features). -/
structure FeatureCollection where
  fcType : String
  features : List GFeature
deriving DecidableEq

/-- The abstract point transform (the behaviour of
`transformCoordinates3347To4326`, which can throw). -/
abbrev PointTr := List ℚ → Except String (List ℚ)

/-- `transformCoordinateArray` (lines 39–41): `coordinates.map(...)` where
the callback may throw — the first throw aborts the whole map. -/
def transformCoordinateArray (tr : PointTr) :
    List (List ℚ) → Except String (List (List ℚ))
  | [] => .ok []
  | c :: rest =>
    match tr c with
    | .error e => .error e
    | .ok c2 =>
      match transformCoordinateArray tr rest with
      | .error e => .error e
      | .ok rest2 => .ok (c2 :: rest2)

/-- `transformPolygonCoordinates` (lines 46–48): transform each ring. -/
def transformPolygonCoordinates (tr : PointTr) :
    List (List (List ℚ)) → Except String (List (List (List ℚ)))
  | [] => .ok []
  | ring :: rest =>
    match transformCoordinateArray tr ring with
    | .error e => .error e
    | .ok ring2 =>
      match transformPolygonCoordinates tr rest with
      | .error e => .error e
      | .ok rest2 => .ok (ring2 :: rest2)

/-- The per-feature `try`/`catch` body of `transformGeoJSON3347To4326`
(lines 60–88): a Polygon feature is transformed (keeping its non-geometry
fields), a throw inside the transform yields `null` (here `none`), and a
non-Polygon feature is returned unchanged. -/
def transformFeature (tr : PointTr) (f : GFeature) : Option GFeature :=
  match f.geometry with
  | .polygon rings =>
    match transformPolygonCoordinates tr rings with
    | .ok rings2 => some { f with geometry := .polygon rings2 }
    | .error _ => none
  | _ => some f

/-- `transformGeoJSON3347To4326` (lines 53–97): map the per-feature
transform over the features and filter out the `null` results, keeping the
collection's other fields (`...geoJSON`). -/
def transformGeoJSON3347To4326 (tr : PointTr) (g : FeatureCollection) :
    FeatureCollection :=
  { g with features := g.features.filterMap (transformFeature tr) }

/-! ## HTTP helpers -/

/-- The part of a `fetch` `Response` the code inspects: `ok` and
`statusText`.  (The parsed JSON body is passed separately.) -/
structure HttpResponse where
  ok : Bool
  statusText : String
deriving DecidableEq

/-- `loadOttawaDABoundaries` (geoTransform.ts lines 102–132) as a function
of the fetched response and its parsed body: `!response.ok` throws
`Failed to load DA boundaries: ${statusText}`; otherwise the body is
reprojected and returned. -/
def loadOttawaDABoundaries (tr : PointTr) (resp : HttpResponse)
    (body : FeatureCollection) : Except String FeatureCollection :=
  if resp.ok = false then
    .error ("Failed to load DA boundaries: " ++ resp.statusText)
  else .ok (transformGeoJSON3347To4326 tr body)

/-- The per-feature body of `normalizeGeoJSON`: take
`feature.properties || {}`, assign the default color when `properties.color`
is falsy, then the default lineWidth when `properties.lineWidth` is falsy,
and return the feature with the (mutated) properties object. -/
def normalizeFeature (defaultColor : String) (defaultLineWidth : ℚ)
    (f : GFeature) : GFeature :=
  let p0 := f.properties.getD []
  let p1 := if optFalsy (objGet p0 "color") then
      objSet p0 "color" (PVal.str defaultColor)
    else p0
  let p2 := if optFalsy (objGet p1 "lineWidth") then
      objSet p1 "lineWidth" (PVal.num defaultLineWidth)
    else p1
  { f with properties := some p2 }

/-- `normalizeGeoJSON` (the unnamed helper module, lines 8–37). -/
def normalizeGeoJSON (g : FeatureCollection) (defaultColor : String)
    (defaultLineWidth : ℚ) : FeatureCollection :=
  { fcType := "FeatureCollection"
    features := g.features.map (normalizeFeature defaultColor defaultLineWidth) }

/-- `fetchGeoJSON` (the unnamed helper module, lines 42–62) as a function of
the fetched response and its parsed body: `!response.ok` throws
`Failed to fetch GeoJSON: ${statusText}`; a body whose `type` is not
`FeatureCollection` throws; otherwise the normalized body is returned.
The default arguments at the call site are `'#FF0000'` and `4`. -/
def fetchGeoJSON (resp : HttpResponse) (body : FeatureCollection)
    (defaultColor : String) (defaultLineWidth : ℚ) :
    Except String FeatureCollection :=
  if resp.ok = false then
    .error ("Failed to fetch GeoJSON: " ++ resp.statusText)
  else if body.fcType ≠ "FeatureCollection" then
    .error "Invalid GeoJSON: Expected FeatureCollection"
  else .ok (normalizeGeoJSON body defaultColor defaultLineWidth)

/-! ## Map.tsx: map construction options -/

/-- The constructor options of `new maplibregl.Map({...})` that the claims
mention (container omitted). -/
structure MapOptions where
  style : String
  center : ℚ × ℚ
  zoom : ℚ
deriving DecidableEq

/-- `DEFAULT_CENTER` (Map.tsx line 7). -/
def DEFAULT_CENTER : ℚ × ℚ := (-75.6972, 45.4215)

/-- `DEFAULT_ZOOM` (Map.tsx line 8). -/
def DEFAULT_ZOOM : ℚ := 11

/-- `defaultStyle` (Map.tsx line 33). -/
def defaultStyle : String := "https://tiles.openfreemap.org/styles/bright"

/-- The map construction (Map.tsx lines 32–45) as a function of the
environment variable `VITE_MAP_STYLE_URL` (`none` = unset):
`style: styleUrl ?? defaultStyle`. -/
def mkMapOptions (envStyleUrl : Option String) : MapOptions :=
  { style := envStyleUrl.getD defaultStyle
    center := DEFAULT_CENTER
    zoom := DEFAULT_ZOOM }

/-! ## Spec-side definitions

These follow the specification's words, to be compared with the embedded
code. -/

/-- Spec-side: a coordinate is a two-element pair of numbers with longitude
in [-180, 180] and latitude in [-90, 90]. -/
def specValidCoord : CoordEntry → Bool
  | .arr [JVal.num lng, JVal.num lat] =>
    decide (-180 ≤ lng ∧ lng ≤ 180 ∧ -90 ≤ lat ∧ lat ≤ 90)
  | _ => false

/-- Spec-side: a route's coordinates list has at least two points, each a
valid longitude/latitude pair. -/
def specValidRoute (r : Route) : Bool :=
  decide (2 ≤ r.coordinates.length) && r.coordinates.all specValidCoord

/-- Spec-side: `sub` occurs as a substring of `s`. -/
def containsSub (s sub : String) : Prop :=
  ∃ a b, s = a ++ sub ++ b

/-- First-`some` choice on optional property values (used to state how the
metadata spread overrides the named feature properties). -/
def optOr (a b : Option PVal) : Option PVal :=
  match a with
  | some v => some v
  | none => b

/-- Spec-side: the four named feature properties of a route, with the
stated defaults. -/
def baseProp (r : Route) (k : String) : Option PVal :=
  if k = "id" then some (PVal.str r.id)
  else if k = "name" then some (PVal.str r.name)
  else if k = "color" then some (PVal.str (colorOrDefault r.color))
  else if k = "lineWidth" then some (PVal.num (lineWidthOrDefault r.lineWidth))
  else none

/-- The registry invariant: every stored route is keyed by its own id and
passes coordinate validation. -/
def RegistryWF (m : RoutesMap) : Prop :=
  ∀ p ∈ m, p.2.id = p.1 ∧ validateRoute p.2 = none

/-- `transformGeoJSON3347To4326` treats exactly the Polygon geometries
specially. -/
def isPolygonG : Geometry → Bool
  | .polygon _ => true
  | _ => false

/-! ## Shared lemmas -/

/-- A single coordinate passes the source validation exactly when it is a
valid longitude/latitude pair in the spec's sense. -/
theorem validateCoord_none_iff (c : CoordEntry) :
    validateCoord c = none ↔ specValidCoord c = true := by
  cases c with
  | notArr => simp [validateCoord, specValidCoord]
  | arr vals =>
    match vals with
    | [] => simp [validateCoord, specValidCoord]
    | [a] => simp [validateCoord, specValidCoord]
    | a :: b :: c :: rest => simp [validateCoord, specValidCoord]
    | [a, b] =>
      cases a with
      | nonNum => cases b <;> simp [validateCoord, specValidCoord]
      | num lng =>
        cases b with
        | nonNum => simp [validateCoord, specValidCoord]
        | num lat =>
          simp only [validateCoord, specValidCoord, decide_eq_true_eq]
          constructor
          · intro h
            by_cases h1 : lng < -180 ∨ lng > 180
            · simp [h1] at h
            · by_cases h2 : lat < -90 ∨ lat > 90
              · simp [h1, h2] at h
              · push_neg at h1 h2
                exact ⟨h1.1, h1.2, h2.1, h2.2⟩
          · rintro ⟨h1, h2, h3, h4⟩
            have hlng : ¬(lng < -180 ∨ lng > 180) := by
              push_neg
              exact ⟨h1, h2⟩
            have hlat : ¬(lat < -90 ∨ lat > 90) := by
              push_neg
              exact ⟨h3, h4⟩
            simp [hlng, hlat]

/-- The validation loop succeeds exactly when every coordinate is valid. -/
theorem validateCoords_none_iff (cs : List CoordEntry) :
    validateCoords cs = none ↔ cs.all specValidCoord = true := by
  induction cs with
  | nil => simp [validateCoords]
  | cons c rest ih =>
    simp only [validateCoords, List.all_cons, Bool.and_eq_true]
    cases hc : validateCoord c with
    | some e =>
      have : ¬ specValidCoord c = true := by
        intro hs
        have := (validateCoord_none_iff c).mpr hs
        rw [this] at hc
        cases hc
      simp [this]
    | none =>
      have hs : specValidCoord c = true := (validateCoord_none_iff c).mp hc
      simp [hs, ih]

/-- `validateRoute` succeeds exactly on spec-valid routes. -/
theorem validateRoute_none_iff (r : Route) :
    validateRoute r = none ↔ specValidRoute r = true := by
  unfold validateRoute specValidRoute
  by_cases h : r.coordinates.length < 2
  · have : ¬ 2 ≤ r.coordinates.length := by omega
    simp [h, this]
  · have h2 : 2 ≤ r.coordinates.length := by omega
    simp [h, h2, validateCoords_none_iff]

/-- A key that `mapHas` misses is absent from `find?`. -/
theorem find?_eq_none_of_not_has (m : RoutesMap) (k : String)
    (h : mapHas m k = false) : m.find? (fun p => p.1 == k) = none := by
  rw [List.find?_eq_none]
  intro p hp hpk
  have hany : m.any (fun p => p.1 == k) = true :=
    List.any_eq_true.mpr ⟨p, hp, hpk⟩
  rw [mapHas] at h
  rw [h] at hany
  cases hany

/-- `mapGet` misses keys that `mapHas` misses. -/
theorem mapGet_eq_none_of_not_has (m : RoutesMap) (k : String)
    (h : mapHas m k = false) : mapGet m k = none := by
  unfold mapGet
  rw [find?_eq_none_of_not_has m k h]
  rfl

/-- A successful `mapGet` means the key is present. -/
theorem mapHas_of_mapGet_some (m : RoutesMap) (k : String) (r : Route)
    (h : mapGet m k = some r) : mapHas m k = true := by
  by_cases hh : mapHas m k = true
  · exact hh
  · have hb : mapHas m k = false := by simpa using hh
    rw [mapGet_eq_none_of_not_has m k hb] at h
    cases h

/-- In-place replacement stores the new value under the key. -/
theorem mapGet_replace (m : RoutesMap) (k : String) (v : Route)
    (h : mapHas m k = true) :
    mapGet (m.map (fun p => if p.1 == k then (k, v) else p)) k = some v := by
  induction m with
  | nil => simp [mapHas] at h
  | cons p rest ih =>
    by_cases hpk : (p.1 == k) = true
    · simp only [List.map_cons, hpk, if_true]
      unfold mapGet
      rw [List.find?_cons_of_pos _ (by simp)]
      rfl
    · have hb : (p.1 == k) = false := by simpa using hpk
      have h2 : mapHas rest k = true := by
        rw [mapHas, List.any_cons] at h
        rw [mapHas]
        simpa [hb] using h
      simp only [List.map_cons, hpk, if_false]
      unfold mapGet at ih ⊢
      rw [List.find?_cons_of_neg _ (by simpa using hpk)]
      exact ih h2

/-- `Map.set` stores the value under the key. -/
theorem mapGet_mapSet_self (m : RoutesMap) (k : String) (v : Route) :
    mapGet (mapSet m k v) k = some v := by
  unfold mapSet
  by_cases h : mapHas m k = true
  · rw [if_pos h]
    exact mapGet_replace m k v h
  · have hb : mapHas m k = false := by simpa using h
    rw [if_neg h]
    unfold mapGet
    rw [List.find?_append, find?_eq_none_of_not_has m k hb]
    simp [List.find?]

/-- In-place replacement keeps the key sequence. -/
theorem mapSet_keys_of_has (m : RoutesMap) (k : String) (v : Route)
    (h : mapHas m k = true) :
    (mapSet m k v).map Prod.fst = m.map Prod.fst := by
  unfold mapSet
  rw [if_pos h, List.map_map]
  apply List.map_congr_left
  intro p _
  by_cases hpk : (p.1 == k) = true
  · simp only [Function.comp_apply, hpk, if_true]
    exact (eq_of_beq hpk).symm
  · have hne : p.1 ≠ k := by simpa using hpk
    simp [Function.comp_apply, hne]

/-- A missed key is not among the stored keys. -/
theorem not_mem_keys_of_not_has (m : RoutesMap) (k : String)
    (h : mapHas m k = false) : k ∉ m.map Prod.fst := by
  intro hk
  rcases List.mem_map.mp hk with ⟨p, hp, hpk⟩
  have hany : m.any (fun p => p.1 == k) = true :=
    List.any_eq_true.mpr ⟨p, hp, by simp [hpk]⟩
  rw [mapHas] at h
  rw [h] at hany
  cases hany

/-- Deletion removes the key. -/
theorem mapGet_mapDelete_self (m : RoutesMap) (id : String) :
    mapGet (mapDelete m id) id = none := by
  unfold mapGet mapDelete
  have hf : (m.filter (fun p => p.1 != id)).find? (fun p => p.1 == id)
      = none := by
    rw [List.find?_eq_none]
    intro p hp hpk
    have hmem := List.mem_filter.mp hp
    have h2 : (p.1 != id) = true := hmem.2
    rw [eq_of_beq hpk] at h2
    simp at h2
  rw [hf]
  rfl

/-- Deletion leaves every other key's binding alone. -/
theorem mapGet_mapDelete_other (m : RoutesMap) (id k : String) (hne : k ≠ id) :
    mapGet (mapDelete m id) k = mapGet m k := by
  unfold mapGet mapDelete
  induction m with
  | nil => rfl
  | cons p rest ih =>
    by_cases hpid : (p.1 != id) = true
    · by_cases hpk : (p.1 == k) = true
      · simp [List.filter_cons, hpid, List.find?, hpk]
      · simp only [List.filter_cons, hpid, if_true, List.find?, hpk]
        simpa using ih
    · have hpide : p.1 = id := by simpa using hpid
      have hpkf : (p.1 == k) = false := by
        simp only [hpide, beq_eq_false_iff_ne, ne_eq]
        intro hc
        exact hne hc.symm
      simp only [List.filter_cons, hpid, if_false, List.find?, hpkf]
      simpa using ih

/-- Deleting an absent key changes nothing. -/
theorem mapDelete_eq_self_of_not_has (m : RoutesMap) (id : String)
    (h : mapHas m id = false) : mapDelete m id = m := by
  unfold mapDelete
  rw [List.filter_eq_self]
  intro p hp
  have hpid : (p.1 == id) = false := by
    by_contra hc
    have hc2 : (p.1 == id) = true := by simpa using hc
    have hany : m.any (fun q => q.1 == id) = true :=
      List.any_eq_true.mpr ⟨p, hp, hc2⟩
    rw [mapHas] at h
    rw [h] at hany
    cases hany
  simp [bne, hpid]

/-- The empty registry is well-formed. -/
theorem registryWF_nil : RegistryWF [] := by
  intro p hp
  cases hp

/-- `Map.set` with a matching, validated route preserves well-formedness. -/
theorem registryWF_mapSet (m : RoutesMap) (k : String) (v : Route)
    (hWF : RegistryWF m) (hid : v.id = k) (hval : validateRoute v = none) :
    RegistryWF (mapSet m k v) := by
  intro p hp
  unfold mapSet at hp
  by_cases h : mapHas m k = true
  · rw [if_pos h] at hp
    rcases List.mem_map.mp hp with ⟨q, hq, hqe⟩
    by_cases hqk : (q.1 == k) = true
    · rw [if_pos hqk] at hqe
      rw [← hqe]
      exact ⟨hid, hval⟩
    · rw [if_neg hqk] at hqe
      rw [← hqe]
      exact hWF q hq
  · rw [if_neg h] at hp
    rcases List.mem_append.mp hp with h1 | h2
    · exact hWF p h1
    · have hp2 : p = (k, v) := by simpa using h2
      rw [hp2]
      exact ⟨hid, hval⟩

/-- `Map.delete` preserves well-formedness. -/
theorem registryWF_mapDelete (m : RoutesMap) (k : String)
    (hWF : RegistryWF m) : RegistryWF (mapDelete m k) := by
  intro p hp
  exact hWF p (List.mem_filter.mp hp).1

/-- `addRoute` preserves well-formedness. -/
theorem registryWF_addRoute (m : RoutesMap) (r : Route)
    (hWF : RegistryWF m) : RegistryWF (addRoute m r).1 := by
  by_cases h1 : r.id = ""
  · have hstep : (addRoute m r).1 = m := by simp [addRoute, h1]
    rwa [hstep]
  · by_cases h2 : mapHas m r.id = true
    · have hstep : (addRoute m r).1 = m := by simp [addRoute, h1, h2]
      rwa [hstep]
    · cases hv : validateRoute r with
      | some e =>
        have hstep : (addRoute m r).1 = m := by simp [addRoute, h1, h2, hv]
        rwa [hstep]
      | none =>
        have hstep : (addRoute m r).1 = mapSet m r.id r := by
          simp [addRoute, h1, h2, hv]
        rw [hstep]
        exact registryWF_mapSet m r.id r hWF rfl hv

/-- `addRoutes` preserves well-formedness (also across a mid-loop throw). -/
theorem registryWF_addRoutes (rs : List Route) :
    ∀ m : RoutesMap, RegistryWF m → RegistryWF (addRoutes m rs).1 := by
  induction rs with
  | nil =>
    intro m h
    exact h
  | cons r rest ih =>
    intro m h
    unfold addRoutes
    cases ha : addRoute m r with
    | mk m2 err =>
      have hWF2 : RegistryWF m2 := by
        have hpres := registryWF_addRoute m r h
        rwa [ha] at hpres
      cases err with
      | some e => exact hWF2
      | none => exact ih m2 hWF2

/-- `updateRoute` preserves well-formedness. -/
theorem registryWF_updateRoute (m : RoutesMap) (id : String)
    (u : RouteUpdate) (hWF : RegistryWF m) :
    RegistryWF (updateRoute m id u).1 := by
  cases hget : mapGet m id with
  | none =>
    have hstep : (updateRoute m id u).1 = m := by simp [updateRoute, hget]
    rwa [hstep]
  | some ex =>
    cases hv : validateRoute (applyUpdate ex u id) with
    | some e =>
      have hstep : (updateRoute m id u).1 = m := by
        simp [updateRoute, hget, hv]
      rwa [hstep]
    | none =>
      have hstep : (updateRoute m id u).1 = mapSet m id (applyUpdate ex u id) := by
        simp [updateRoute, hget, hv]
      rw [hstep]
      exact registryWF_mapSet m id (applyUpdate ex u id) hWF rfl hv

/-- `removeRoutes` preserves well-formedness. -/
theorem registryWF_removeRoutes (ids : List String) :
    ∀ m : RoutesMap, RegistryWF m → RegistryWF (removeRoutes m ids) := by
  induction ids with
  | nil =>
    intro m h
    exact h
  | cons i rest ih =>
    intro m h
    exact ih (mapDelete m i) (registryWF_mapDelete m i h)

/-- Lookup in concatenated objects: the right-hand (later-spread) entries
win. -/
theorem objGet_append (a b : Obj) (k : String) :
    objGet (a ++ b) k = optOr (objGet b k) (objGet a k) := by
  unfold objGet
  rw [List.reverse_append, List.find?_append]
  cases hb : b.reverse.find? (fun p => p.1 == k) with
  | some v => simp [Option.or, optOr]
  | none => simp [Option.or, optOr]

/-- Lookup among the four named feature properties. -/
theorem objGet_base (r : Route) (k : String) :
    objGet [("id", PVal.str r.id), ("name", PVal.str r.name),
      ("color", PVal.str (colorOrDefault r.color)),
      ("lineWidth", PVal.num (lineWidthOrDefault r.lineWidth))] k
      = baseProp r k := by
  by_cases h1 : k = "id"
  · subst h1
    rfl
  · by_cases h2 : k = "name"
    · subst h2
      rfl
    · by_cases h3 : k = "color"
      · subst h3
        rfl
      · by_cases h4 : k = "lineWidth"
        · subst h4
          rfl
        · have hf : (([("id", PVal.str r.id), ("name", PVal.str r.name),
              ("color", PVal.str (colorOrDefault r.color)),
              ("lineWidth",
                PVal.num (lineWidthOrDefault r.lineWidth))] : Obj).reverse.find?
                (fun p => p.1 == k)) = none := by
            rw [List.find?_eq_none]
            intro p hp hpk
            rw [List.mem_reverse] at hp
            have hk := eq_of_beq hpk
            simp only [List.mem_cons, List.not_mem_nil, or_false] at hp
            rcases hp with h | h | h | h
            · rw [h] at hk
              exact h1 hk.symm
            · rw [h] at hk
              exact h2 hk.symm
            · rw [h] at hk
              exact h3 hk.symm
            · rw [h] at hk
              exact h4 hk.symm
          unfold objGet
          rw [hf]
          simp [baseProp, h1, h2, h3, h4]

/-- The `toGeoJSON` properties object, characterized by lookup: the
metadata entries, then the four named properties. -/
theorem objGet_routeProps (r : Route) (k : String) :
    objGet (routeProps r) k
      = optOr (objGet (r.properties.getD []) k) (baseProp r k) := by
  unfold routeProps
  rw [objGet_append, objGet_base]

/-! ## Sample data for concrete evaluations -/

/-- Two valid Ottawa-area coordinates (integer-valued, so that concrete
evaluations reduce). -/
def sampleCoords : List CoordEntry :=
  [CoordEntry.arr [JVal.num (-75), JVal.num 45],
   CoordEntry.arr [JVal.num (-76), JVal.num 46]]

/-- A valid route. -/
def sampleRoute : Route :=
  { id := "r1", name := "Route 1", coordinates := sampleCoords
    color := some "#00FF00", lineWidth := some 2, properties := none }

/-- A route with an empty coordinates list (fails validation). -/
def badCoordsRoute : Route :=
  { id := "bad", name := "Bad", coordinates := []
    color := none, lineWidth := none, properties := none }

/-- An update that replaces the coordinates with the empty list. -/
def clearUpdate : RouteUpdate :=
  { name := none, coordinates := some []
    color := none, lineWidth := none, properties := none }

/-- An update that touches nothing. -/
def emptyUpdate : RouteUpdate :=
  { name := none, coordinates := none
    color := none, lineWidth := none, properties := none }

/-- A route with an empty id. -/
def emptyIdRoute : Route :=
  { id := "", name := "NoId", coordinates := sampleCoords
    color := none, lineWidth := none, properties := none }

/-- A second valid route, carrying metadata. -/
def sampleRoute2 : Route :=
  { id := "r2", name := "Route 2", coordinates := sampleCoords
    color := none, lineWidth := none
    properties := some [("operator", PVal.str "OC Transpo")] }

/-- A route with `lineWidth = 0` (a falsy value under JS `||`). -/
def zeroWidthRoute : Route :=
  { id := "a", name := "n", coordinates := sampleCoords
    color := none, lineWidth := some 0, properties := none }

/-- An update that only changes the color. -/
def recolorUpdate : RouteUpdate :=
  { name := none, coordinates := none
    color := some (some "#0000FF"), lineWidth := none, properties := none }

/-- A failing HTTP response. -/
def respFail : HttpResponse := { ok := false, statusText := "Not Found" }

/-- A successful HTTP response. -/
def respOk : HttpResponse := { ok := true, statusText := "OK" }

/-- An empty FeatureCollection. -/
def emptyFC : FeatureCollection := { fcType := "FeatureCollection", features := [] }

/-- A point transform that always succeeds (identity). -/
def idTr : PointTr := fun c => .ok c

/-- A point transform that always throws. -/
def failTr : PointTr := fun _ => .error "boom"

/-- A Polygon feature with metadata. -/
def polyFeature : GFeature :=
  { properties := some [("name", PVal.str "p")]
    geometry := .polygon [[[0, 0], [1, 1]]] }

/-- A LineString (non-Polygon) feature. -/
def lineFeature : GFeature :=
  { properties := none, geometry := .lineString [[0, 0]] }

/-- A FeatureCollection holding one Polygon and one LineString feature. -/
def sampleFC : FeatureCollection :=
  { fcType := "FeatureCollection", features := [polyFeature, lineFeature] }

/-! ## Claim theorems -/

/-- C1: a route passed to `addRoute`, and the merged route validated by
`updateRoute`, is rejected (an error is thrown) whenever its coordinates
list has fewer than 2 points, or some point is not a two-element pair of
numbers, or some longitude is outside [-180, 180], or some latitude is
outside [-90, 90]; and `validateRoute` accepts exactly the routes
satisfying all of these conditions. -/
theorem routeValidation_spec (r : Route) :
    (validateRoute r = none ↔ specValidRoute r = true) ∧
    (∀ m : RoutesMap, specValidRoute r = false →
      ((addRoute m r).2).isSome = true) ∧
    (∀ (m : RoutesMap) (id : String) (existing : Route) (u : RouteUpdate),
      mapGet m id = some existing →
      specValidRoute (applyUpdate existing u id) = false →
      ((updateRoute m id u).2).isSome = true) := by
  refine ⟨validateRoute_none_iff r, ?_, ?_⟩
  · intro m hbad
    unfold addRoute
    by_cases h1 : r.id = ""
    · simp [h1]
    · by_cases h2 : mapHas m r.id = true
      · simp [h1, h2]
      · cases hv : validateRoute r with
        | some e => simp [h1, h2, hv]
        | none =>
          exfalso
          have ht := (validateRoute_none_iff r).mp hv
          rw [ht] at hbad
          cases hbad
  · intro m id existing u hget hbad
    unfold updateRoute
    rw [hget]
    cases hv : validateRoute (applyUpdate existing u id) with
    | some e => simp [hv]
    | none =>
      exfalso
      have ht := (validateRoute_none_iff _).mp hv
      rw [ht] at hbad
      cases hbad

/-- C1 witness: concrete rejected calls. -/
theorem routeValidation_spec_witness :
    ((addRoute [] badCoordsRoute).2).isSome = true ∧
    ((updateRoute [("r1", sampleRoute)] "r1" clearUpdate).2).isSome = true :=
  ⟨(routeValidation_spec badCoordsRoute).2.1 [] (by decide),
   (routeValidation_spec badCoordsRoute).2.2 [("r1", sampleRoute)] "r1"
     sampleRoute clearUpdate (by decide) (by decide)⟩

/-- C2 counterexample: `badCoordsRoute` has a nonempty id not present in the
(empty) registry, yet `addRoute` throws and does not insert it — coordinate
validation can reject a route even when its identifier is fresh, so
"otherwise inserts the route under its id" is false as stated. -/
theorem addRoute_insert_cex :
    badCoordsRoute.id ≠ "" ∧
    mapHas [] badCoordsRoute.id = false ∧
    ((addRoute [] badCoordsRoute).2).isSome = true ∧
    mapGet (addRoute [] badCoordsRoute).1 badCoordsRoute.id = none := by
  decide

/-- C2 (amended): `addRoute` throws on an empty id and on a duplicate id;
otherwise, provided the route passes coordinate validation, it inserts the
route under its id; and an insert never duplicates a key. -/
theorem addRoute_uniqueness (m : RoutesMap) (r : Route) :
    (r.id = "" → addRoute m r = (m, some "Route must have an id")) ∧
    (r.id ≠ "" → mapHas m r.id = true →
      addRoute m r =
        (m, some ("Route with id \"" ++ r.id ++ "\" already exists"))) ∧
    (r.id ≠ "" → mapHas m r.id = false → validateRoute r = none →
      (addRoute m r).2 = none ∧
      mapGet (addRoute m r).1 r.id = some r) ∧
    ((m.map Prod.fst).Nodup → ((addRoute m r).1.map Prod.fst).Nodup) := by
  refine ⟨?_, ?_, ?_, ?_⟩
  · intro h
    simp [addRoute, h]
  · intro h1 h2
    simp [addRoute, h1, h2]
  · intro h1 h2 h3
    have hstep : addRoute m r = (mapSet m r.id r, none) := by
      simp [addRoute, h1, h2, h3]
    rw [hstep]
    exact ⟨rfl, mapGet_mapSet_self m r.id r⟩
  · intro hnd
    by_cases h1 : r.id = ""
    · have hm : (addRoute m r).1 = m := by simp [addRoute, h1]
      rwa [hm]
    · by_cases h2 : mapHas m r.id = true
      · have hm : (addRoute m r).1 = m := by simp [addRoute, h1, h2]
        rwa [hm]
      · have hb : mapHas m r.id = false := by simpa using h2
        cases hv : validateRoute r with
        | some e =>
          have hm : (addRoute m r).1 = m := by simp [addRoute, h1, hb, hv]
          rwa [hm]
        | none =>
          have hstep : (addRoute m r).1 = mapSet m r.id r := by
            simp [addRoute, h1, hb, hv]
          rw [hstep]
          unfold mapSet
          rw [if_neg (by simp [hb]), List.map_append, List.nodup_append]
          refine ⟨hnd, List.nodup_singleton r.id, ?_⟩
          intro a ha hb2
          have hb3 : a = r.id := by simpa using hb2
          exact not_mem_keys_of_not_has m r.id hb (hb3 ▸ ha)

/-- C2 witness: the three behaviours at concrete inputs. -/
theorem addRoute_uniqueness_witness :
    addRoute [] emptyIdRoute = ([], some "Route must have an id") ∧
    addRoute [("r1", sampleRoute)] sampleRoute =
      ([("r1", sampleRoute)],
       some "Route with id \"r1\" already exists") ∧
    mapGet (addRoute [] sampleRoute).1 sampleRoute.id = some sampleRoute ∧
    (((addRoute [] sampleRoute).1.map Prod.fst).Nodup) :=
  ⟨(addRoute_uniqueness [] emptyIdRoute).1 rfl,
   (addRoute_uniqueness [("r1", sampleRoute)] sampleRoute).2.1
     (by decide) (by decide),
   ((addRoute_uniqueness [] sampleRoute).2.2.1
     (by decide) (by decide) (by decide)).2,
   (addRoute_uniqueness [] sampleRoute).2.2.2 (by decide)⟩

/-- C4: after a successful `updateRoute(id, updates)`, the stored route
under `id` still has identifier `id`, every field named in the updates
carries the update's value, and every field not named keeps the existing
route's value. -/
theorem updateRoute_frame (m : RoutesMap) (id : String) (u : RouteUpdate)
    (existing : Route) (hget : mapGet m id = some existing)
    (hok : (updateRoute m id u).2 = none) :
    ∃ r2, mapGet (updateRoute m id u).1 id = some r2 ∧
      r2.id = id ∧
      (∀ v, u.name = some v → r2.name = v) ∧
      (u.name = none → r2.name = existing.name) ∧
      (∀ v, u.coordinates = some v → r2.coordinates = v) ∧
      (u.coordinates = none → r2.coordinates = existing.coordinates) ∧
      (∀ v, u.color = some v → r2.color = v) ∧
      (u.color = none → r2.color = existing.color) ∧
      (∀ v, u.lineWidth = some v → r2.lineWidth = v) ∧
      (u.lineWidth = none → r2.lineWidth = existing.lineWidth) ∧
      (∀ v, u.properties = some v → r2.properties = v) ∧
      (u.properties = none → r2.properties = existing.properties) := by
  have hval : validateRoute (applyUpdate existing u id) = none := by
    cases hv2 : validateRoute (applyUpdate existing u id) with
    | none => rfl
    | some e =>
      have hbad : (updateRoute m id u).2 = some e := by
        simp [updateRoute, hget, hv2]
      rw [hbad] at hok
      cases hok
  have hres : (updateRoute m id u).1 = mapSet m id (applyUpdate existing u id) := by
    simp [updateRoute, hget, hval]
  refine ⟨applyUpdate existing u id, ?_, rfl, ?_, ?_, ?_, ?_, ?_, ?_, ?_, ?_,
    ?_, ?_⟩
  · rw [hres]
    exact mapGet_mapSet_self m id (applyUpdate existing u id)
  · intro v hv
    simp [applyUpdate, hv]
  · intro hv
    simp [applyUpdate, hv]
  · intro v hv
    simp [applyUpdate, hv]
  · intro hv
    simp [applyUpdate, hv]
  · intro v hv
    simp [applyUpdate, hv]
  · intro hv
    simp [applyUpdate, hv]
  · intro v hv
    simp [applyUpdate, hv]
  · intro hv
    simp [applyUpdate, hv]
  · intro v hv
    simp [applyUpdate, hv]
  · intro hv
    simp [applyUpdate, hv]

/-- C4 witness: updating only the color of a stored route keeps its name
and identifier. -/
theorem updateRoute_frame_witness :
    ∃ r2, mapGet (updateRoute [("r1", sampleRoute)] "r1" recolorUpdate).1 "r1"
        = some r2 ∧
      r2.id = "r1" ∧ r2.color = some "#0000FF" ∧ r2.name = sampleRoute.name := by
  obtain ⟨r2, hg, hid, _, hn2, _, _, hc1, _, _, _, _, _⟩ :=
    updateRoute_frame [("r1", sampleRoute)] "r1" recolorUpdate sampleRoute
      (by decide) (by decide)
  exact ⟨r2, hg, hid, hc1 (some "#0000FF") rfl, hn2 rfl⟩

/-- C5: whenever `addRoute` or `updateRoute` throws (the error channel is
`some`, propagated to the caller), the registry contents are exactly what
they were before the call: every throw in the source happens before the
single mutation. -/
theorem mutation_atomic (m : RoutesMap) (r : Route) (id : String)
    (u : RouteUpdate) :
    (((addRoute m r).2).isSome = true → (addRoute m r).1 = m) ∧
    (((updateRoute m id u).2).isSome = true → (updateRoute m id u).1 = m) := by
  constructor
  · intro herr
    by_cases h1 : r.id = ""
    · simp [addRoute, h1]
    · by_cases h2 : mapHas m r.id = true
      · simp [addRoute, h1, h2]
      · cases hv : validateRoute r with
        | some e => simp [addRoute, h1, h2, hv]
        | none =>
          have : ((addRoute m r).2).isSome = false := by
            simp [addRoute, h1, h2, hv]
          rw [this] at herr
          cases herr
  · intro herr
    cases hget : mapGet m id with
    | none => simp [updateRoute, hget]
    | some existing =>
      cases hv : validateRoute (applyUpdate existing u id) with
      | some e => simp [updateRoute, hget, hv]
      | none =>
        have : ((updateRoute m id u).2).isSome = false := by
          simp [updateRoute, hget, hv]
        rw [this] at herr
        cases herr

/-- C5 witness: failed calls leave the empty registry empty. -/
theorem mutation_atomic_witness :
    (addRoute [] badCoordsRoute).1 = [] ∧
    (updateRoute [] "x" emptyUpdate).1 = [] :=
  ⟨(mutation_atomic [] badCoordsRoute "x" emptyUpdate).1 (by decide),
   (mutation_atomic [] badCoordsRoute "x" emptyUpdate).2 (by decide)⟩

/-- C9: `removeRoute` never throws (its source is a single `Map.delete`
with no error channel): it returns `true` and removes the binding when the
id is present — leaving every other binding alone — and returns `false`
leaving the registry unchanged when the id is absent. -/
theorem removeRoute_total (m : RoutesMap) (id : String) :
    (mapHas m id = true →
      (removeRoute m id).2 = true ∧
      mapGet (removeRoute m id).1 id = none ∧
      (∀ k, k ≠ id → mapGet (removeRoute m id).1 k = mapGet m k)) ∧
    (mapHas m id = false →
      (removeRoute m id).2 = false ∧ (removeRoute m id).1 = m) := by
  constructor
  · intro h
    refine ⟨by simp [removeRoute, h], mapGet_mapDelete_self m id, ?_⟩
    intro k hk
    exact mapGet_mapDelete_other m id k hk
  · intro h
    exact ⟨by simp [removeRoute, h], mapDelete_eq_self_of_not_has m id h⟩

/-- C9 witness: both branches at concrete inputs. -/
theorem removeRoute_total_witness :
    ((removeRoute [("r1", sampleRoute)] "r1").2 = true ∧
      mapGet (removeRoute [("r1", sampleRoute)] "r1").1 "r1" = none) ∧
    ((removeRoute [("r1", sampleRoute)] "x").2 = false ∧
      (removeRoute [("r1", sampleRoute)] "x").1 = [("r1", sampleRoute)]) :=
  ⟨⟨((removeRoute_total [("r1", sampleRoute)] "r1").1 (by decide)).1,
    ((removeRoute_total [("r1", sampleRoute)] "r1").1 (by decide)).2.1⟩,
   (removeRoute_total [("r1", sampleRoute)] "x").2 (by decide)⟩

/-- C8: every `RoutesManager` operation preserves the registry invariant:
each stored route is keyed by its own id and passes coordinate validation
(at least 2 points, each a numeric longitude/latitude pair in range). -/
theorem registry_invariant (m : RoutesMap) (r : Route) (rs : List Route)
    (id : String) (u : RouteUpdate) (i : String) (ids : List String)
    (hWF : RegistryWF m) :
    RegistryWF (mkRoutesManager rs).1 ∧
    RegistryWF (addRoute m r).1 ∧
    RegistryWF (addRoutes m rs).1 ∧
    RegistryWF (updateRoute m id u).1 ∧
    RegistryWF (removeRoute m i).1 ∧
    RegistryWF (removeRoutes m ids) ∧
    RegistryWF (clearAll m) :=
  ⟨registryWF_addRoutes rs [] registryWF_nil,
   registryWF_addRoute m r hWF,
   registryWF_addRoutes rs m hWF,
   registryWF_updateRoute m id u hWF,
   registryWF_mapDelete m i hWF,
   registryWF_removeRoutes ids m hWF,
   registryWF_nil⟩

/-- C8 witness: concrete operations on a concrete well-formed registry. -/
theorem registry_invariant_witness :
    RegistryWF (mkRoutesManager [sampleRoute, sampleRoute2]).1 ∧
    RegistryWF (addRoute [("r1", sampleRoute)] sampleRoute2).1 ∧
    RegistryWF (removeRoutes [("r1", sampleRoute)] ["r1", "x"]) :=
  have h := registry_invariant [("r1", sampleRoute)] sampleRoute2
    [sampleRoute, sampleRoute2] "r1" recolorUpdate "r1" ["r1", "x"]
    (by unfold RegistryWF; decide)
  ⟨h.1, h.2.1, h.2.2.2.2.2.1⟩

/-- C3 counterexample: a stored route with `lineWidth = 0` — which
`addRoute` accepts — is converted with a `lineWidth` property of `4`, not
the route's own `0`: the source's `route.lineWidth || 4` also replaces the
falsy value `0`, so the feature's properties do not carry this route's
`lineWidth` even though the route has one. -/
theorem toGeoJSON_zero_lineWidth_cex :
    zeroWidthRoute.lineWidth = some 0 ∧
    (addRoute [] zeroWidthRoute).2 = none ∧
    (toGeoJSON [("a", zeroWidthRoute)]).features.map
        (fun f => objGet f.props "lineWidth") = [some (PVal.num 4)] := by
  decide

/-- C3 (amended): `toGeoJSON` returns a FeatureCollection with one
LineString feature per stored route whose geometry coordinates equal the
route's coordinates; the feature's properties are the keys `id`, `name`,
`color`, `lineWidth` followed by the route's metadata entries — which, being
spread last, override those four keys on lookup when they collide — with
`color` defaulting to `'#FF0000'` when the route's color is absent or the
empty string, and `lineWidth` defaulting to `4` when the route's lineWidth
is absent or `0`. -/
theorem toGeoJSON_spec (m : RoutesMap) :
    (toGeoJSON m).fcType = "FeatureCollection" ∧
    (toGeoJSON m).features.length = m.length ∧
    List.Forall₂ (fun (p : String × Route) (f : RouteFeature) =>
        f.gtype = "LineString" ∧
        f.coordinates = p.2.coordinates ∧
        ∀ k, objGet f.props k
          = optOr (objGet (p.2.properties.getD []) k) (baseProp p.2 k))
      m (toGeoJSON m).features := by
  refine ⟨rfl, by simp [toGeoJSON], ?_⟩
  unfold toGeoJSON
  simp only
  induction m with
  | nil => exact List.Forall₂.nil
  | cons p rest ih =>
    exact List.Forall₂.cons ⟨rfl, rfl, fun k => objGet_routeProps p.2 k⟩ ih

/-- C6: a non-ok HTTP response makes `loadOttawaDABoundaries` and
`fetchGeoJSON` throw an error whose message contains (as a suffix) the
response's status text; on an ok response no such fetch-failure error is
thrown — `loadOttawaDABoundaries` returns normally, and the only error
`fetchGeoJSON` can still throw is the fixed `Invalid GeoJSON` message,
which is not the status-text-bearing failure error. -/
theorem fetch_error_status (tr : PointTr) (resp : HttpResponse)
    (body : FeatureCollection) (dc : String) (dw : ℚ) :
    (resp.ok = false →
      loadOttawaDABoundaries tr resp body
          = .error ("Failed to load DA boundaries: " ++ resp.statusText) ∧
      containsSub ("Failed to load DA boundaries: " ++ resp.statusText)
        resp.statusText ∧
      fetchGeoJSON resp body dc dw
          = .error ("Failed to fetch GeoJSON: " ++ resp.statusText) ∧
      containsSub ("Failed to fetch GeoJSON: " ++ resp.statusText)
        resp.statusText) ∧
    (resp.ok = true →
      (∃ out, loadOttawaDABoundaries tr resp body = .ok out) ∧
      (∀ e, fetchGeoJSON resp body dc dw = .error e →
        e = "Invalid GeoJSON: Expected FeatureCollection")) := by
  constructor
  · intro h
    refine ⟨by simp [loadOttawaDABoundaries, h],
      ⟨"Failed to load DA boundaries: ", "", by simp⟩,
      by simp [fetchGeoJSON, h],
      ⟨"Failed to fetch GeoJSON: ", "", by simp⟩⟩
  · intro h
    constructor
    · exact ⟨transformGeoJSON3347To4326 tr body,
        by simp [loadOttawaDABoundaries, h]⟩
    · intro e he
      by_cases hb : body.fcType = "FeatureCollection"
      · simp [fetchGeoJSON, h, hb] at he
      · simp [fetchGeoJSON, h, hb] at he
        exact he.symm

/-- C6 witness: both response outcomes at concrete inputs. -/
theorem fetch_error_status_witness :
    loadOttawaDABoundaries idTr respFail emptyFC
        = .error ("Failed to load DA boundaries: " ++ respFail.statusText) ∧
    (∃ out, loadOttawaDABoundaries idTr respOk emptyFC = .ok out) ∧
    fetchGeoJSON respFail emptyFC "#FF0000" 4
        = .error ("Failed to fetch GeoJSON: " ++ respFail.statusText) :=
  ⟨((fetch_error_status idTr respFail emptyFC "#FF0000" 4).1 rfl).1,
   ((fetch_error_status idTr respOk emptyFC "#FF0000" 4).2 rfl).1,
   ((fetch_error_status idTr respFail emptyFC "#FF0000" 4).1 rfl).2.2.1⟩

/-- C7: the map is constructed with the environment-supplied style URL when
`VITE_MAP_STYLE_URL` is set, and with the fixed public default style URL
`https://tiles.openfreemap.org/styles/bright` when it is unset. -/
theorem mapStyle_env_or_default (s : String) :
    (mkMapOptions (some s)).style = s ∧
    (mkMapOptions none).style = "https://tiles.openfreemap.org/styles/bright" :=
  ⟨rfl, rfl⟩

/-- C10: `transformGeoJSON3347To4326` contains per-feature transformation
errors: the output keeps the collection's other fields; its feature count is
at most the input's; a non-Polygon feature is passed through unchanged; a
successfully transformed Polygon feature keeps its non-geometry fields; and
the per-feature transform drops a feature (yields `none`, filtered from the
output) exactly when it is a Polygon whose coordinate transformation
throws. -/
theorem transform_error_containment (tr : PointTr) (g : FeatureCollection) :
    (transformGeoJSON3347To4326 tr g).fcType = g.fcType ∧
    (transformGeoJSON3347To4326 tr g).features.length ≤ g.features.length ∧
    (∀ f ∈ g.features, isPolygonG f.geometry = false →
      f ∈ (transformGeoJSON3347To4326 tr g).features) ∧
    (∀ f ∈ g.features, ∀ rings rings2, f.geometry = .polygon rings →
      transformPolygonCoordinates tr rings = .ok rings2 →
      { f with geometry := .polygon rings2 }
        ∈ (transformGeoJSON3347To4326 tr g).features) ∧
    (∀ f, transformFeature tr f = none ↔
      ∃ rings e, f.geometry = .polygon rings ∧
        transformPolygonCoordinates tr rings = .error e) := by
  refine ⟨rfl, List.length_filterMap_le _ _, ?_, ?_, ?_⟩
  · intro f hf hnp
    apply List.mem_filterMap.mpr
    refine ⟨f, hf, ?_⟩
    cases hg : f.geometry with
    | polygon rings =>
      rw [hg] at hnp
      simp [isPolygonG] at hnp
    | lineString cs => simp [transformFeature, hg]
    | other t => simp [transformFeature, hg]
  · intro f hf rings rings2 hg htr
    apply List.mem_filterMap.mpr
    exact ⟨f, hf, by simp [transformFeature, hg, htr]⟩
  · intro f
    constructor
    · intro hn
      cases hg : f.geometry with
      | polygon rings =>
        cases htr : transformPolygonCoordinates tr rings with
        | ok r2 => simp [transformFeature, hg, htr] at hn
        | error e => exact ⟨rings, e, rfl, htr⟩
      | lineString cs => simp [transformFeature, hg] at hn
      | other t => simp [transformFeature, hg] at hn
    · rintro ⟨rings, e, hg, htr⟩
      simp [transformFeature, hg, htr]

/-- C10 witness: under an always-throwing point transform, the Polygon
feature is dropped and the LineString feature survives. -/
theorem transform_error_containment_witness :
    lineFeature ∈ (transformGeoJSON3347To4326 failTr sampleFC).features ∧
    (transformGeoJSON3347To4326 failTr sampleFC).features.length
      ≤ sampleFC.features.length ∧
    transformFeature failTr polyFeature = none :=
  ⟨(transform_error_containment failTr sampleFC).2.2.1 lineFeature
      (by decide) (by decide),
   (transform_error_containment failTr sampleFC).2.1,
   ((transform_error_containment failTr sampleFC).2.2.2.2 polyFeature).mpr
     ⟨[[[0, 0], [1, 1]]], "boom", rfl, rfl⟩⟩

end Transit
